import Mathlib

/-!
Shallow embedding of `src/hub/src/server/drivers/GhDriver.js`, the GitHub
storage driver of the gaia hub, together with theorems settling the frozen
claims about it.

Modelling conventions:
  * JS strings are `String`; an optional/possibly-`undefined` string field is
    `Option String` (`none` = absent or `undefined`).
  * A thrown `Error` is `Except.error` of its message string; the distinct
    `BadPathError` class keeps its own constructor.
  * A promise outcome is a sum: it resolves, rejects, or never settles
    (the driver has paths on which neither `resolve` nor `reject` is ever
    called; those are modelled explicitly, not idealised away).
  * The input stream of a write is its observable event trace: the list of
    data chunks followed by either a normal `end` or an `error` event.
  * The remote octokit client is abstracted as a function argument where the
    code actually reaches it (`listFiles`); `performWrite` never reaches it
    (see `performWrite` below), so the write model instead records the list
    of `createFile` calls issued, which is empty on every path.
-/

deriving instance DecidableEq for Except

namespace GaiaGh

/-- The optional fields of `config.ghConfig` (the `GH_CONFIG_TYPE` Flow type):
`authtype`, `token`, `baseurl`, `owner`, `repo`, `path`, `ref`.  `none`
models a property that is absent or `undefined`. -/
structure GhConfigFields where
  authtype : Option String
  token : Option String
  baseurl : Option String
  owner : Option String
  repo : Option String
  path : Option String
  ref : Option String
  deriving DecidableEq, Repr

/-- The whole constructor argument: `{ ghConfig, bucket }`. -/
structure GhConfigType where
  ghConfig : Option GhConfigFields
  bucket : Option String
  deriving DecidableEq, Repr

/-- A driver instance: the fields the constructor assigns.  The class
declares a `bucket` field but the constructor never assigns it, so on every
instance `this.bucket` is `undefined`; we model the field as an
`Option String` that construction always leaves `none`. -/
structure GhDriver where
  bucket : Option String
  owner : String
  repo : String
  path : String
  ref : String
  deriving DecidableEq, Repr

/-- The constructor's guard `!x || x === ''` on an optional string field:
true exactly when the field is absent/`undefined` or the empty string. -/
def strAbsent : Option String → Bool
  | none => true
  | some s => s == ""

/-- The value of an optional field once its guard has run: the supplied
string when present and non-empty, otherwise the default. -/
def presentOr (v : Option String) (d : String) : String :=
  match v with
  | none => d
  | some s => if s == "" then d else s

/-- The `ghConfig` object with no key set: `Object.keys(ghConfig).length === 0`. -/
def emptyGhConfig : GhConfigFields :=
  { authtype := none, token := none, baseurl := none, owner := none,
    repo := none, path := none, ref := none }

/-- Constructor lines after the auth switch: the owner/repo guards and the
path/ref defaulting (the missing-path and missing-ref cases are logged, not
errored).  `bucket := none` records that `this.bucket` is never assigned. -/
def afterAuth (g : GhConfigFields) : Except String GhDriver :=
  if strAbsent g.owner then .error "You must supply an owner"
  else if strAbsent g.repo then .error "You must supply an repo"
  else .ok
    { bucket := none
      owner := presentOr g.owner ""
      repo := presentOr g.repo ""
      path := presentOr g.path "/"
      ref := presentOr g.ref "master" }

/-- The constructor `GhDriver(config)`.  A thrown `Error` is `.error` of its
exact message.  The `switch (authtype)` is rendered as the equivalent chain
of strict string comparisons; its `default` arm (any value other than
`"token"`/`"oauth"`, the absent case included) is the unsupported-auth
error. -/
def makeDriver (config : GhConfigType) : Except String GhDriver :=
  match config.ghConfig with
  | none => .error "Configuration is missing for GitHub driver"
  | some g =>
    if g = emptyGhConfig then .error "Configuration is missing for GitHub driver"
    else if g.authtype = some "token" then
      if strAbsent g.token then .error "Using token authentication but no token supplied"
      else afterAuth g
    else if g.authtype = some "oauth" then
      if strAbsent g.token then .error "Using oauth authentication but no token supplied"
      else afterAuth g
    else .error "Using an unsupported auth type. Only \"token\" or \"oauth\" are supported"

/-- Substring occurrence, computed the way JS substring search observes
it: some tail of `s` starts with `pat`. -/
def containsSub (pat s : List Char) : Bool :=
  s.tails.any (fun t => pat.isPrefixOf t)

/-- Predicate `GhDriver.isPathValid` (lines 96–99): `path.indexOf('..') === -1`, i.e.
valid exactly when `".."` does not occur in the path. -/
def isPathValid (path : String) : Bool :=
  ! containsSub "..".data path.data

/-- Method `getReadURLPrefix` (lines 101–103): the raw-content URL prefix, a pure
function of the configured owner, repo and ref, with a trailing slash. -/
def getReadURLPrefix (d : GhDriver) : String :=
  "https://raw.githubusercontent.com/" ++ d.owner ++ "/" ++ d.repo ++ "/" ++ d.ref ++ "/"

/-- The observable behaviour of the input stream of a write: data chunks
followed by a normal end, or data chunks followed by an `error` event
carrying (the string rendering of) the underlying error. -/
inductive StreamBehavior where
  | ends (chunks : List String)
  | fails (chunks : List String) (err : String)
  deriving DecidableEq, Repr

/-- The argument object of `performWrite`. -/
structure WriteArgs where
  path : String
  storageTopLevel : String
  stream : StreamBehavior
  contentLength : Int
  contentType : String
  deriving DecidableEq, Repr

/-- The errors a write can surface.  `badPath` is the distinct
`BadPathError` class; `jsError` is a plain `new Error(msg)`;
`typeErrorUndefinedOc` is the runtime TypeError thrown when the end handler
evaluates `this.oc.repos` with `this.oc` being `undefined`. -/
inductive JsError where
  | badPath (msg : String)
  | jsError (msg : String)
  | typeErrorUndefinedOc
  deriving DecidableEq, Repr

/-- How the promise returned by `performWrite` ends up: resolved, rejected,
or never settled (with the exception, if any, that escaped uncaught). -/
inductive WriteOutcome where
  | resolved (url : String)
  | rejected (e : JsError)
  | neverSettles (uncaught : Option JsError)
  deriving DecidableEq, Repr

/-- The parameter object a `createFile` backend call would carry. -/
structure GhParams where
  owner : String
  repo : String
  path : String
  message : String
  branch : String
  committerName : String
  committerEmail : String
  content : String
  deriving DecidableEq, Repr

/-- Everything observable about one `performWrite` call: how its promise
settles (or fails to), and the `createFile` calls issued to the backend. -/
structure WriteResult where
  outcome : WriteOutcome
  backendCalls : List GhParams
  deriving DecidableEq, Repr

/-- Line 117: `const contentPath = `...`` — the backend-relative content
path, `storageTopLevel + "/" + path`. -/
def contentPathOf (args : WriteArgs) : String :=
  args.storageTopLevel ++ "/" ++ args.path

/-- Line 119: `const downloadPath = `${this.getReadURLPrefix()}/${contentPath}``
— the URL the success path passes to `resolve`.  Note the template inserts
its own `/` after the prefix, which already ends in `/`. -/
def downloadPathOf (d : GhDriver) (args : WriteArgs) : String :=
  getReadURLPrefix d ++ "/" ++ contentPathOf args

/-- JS template-literal rendering of a possibly-`undefined` string. -/
def jsShow : Option String → String
  | none => "undefined"
  | some s => s

/-- Lines 121–133: the `ghParams` object as initially built (before the end
handler overwrites `content` with the buffered stream contents). -/
def initialGhParams (d : GhDriver) (cp : String) : GhParams :=
  { owner := d.owner, repo := d.repo, path := cp,
    message := "TODO: add comment", branch := d.ref,
    committerName := "gaia", committerEmail := "someone@somewhere",
    content := "" }

/-- The accumulation `contents = contents + chunk` over the data events,
starting from `''`. -/
def bufferedContents (chunks : List String) : String :=
  chunks.foldl (· ++ ·) ""

/-- Lines 151–152: the message of the `Error` the stream-error handler
rejects with.  The source has no space between `file` and the interpolated
content path, interpolates `this.bucket` (always `undefined`, see
`GhDriver.bucket`), and ends with a stray `\x7d` after `${err}`. -/
def streamErrorMessage (d : GhDriver) (cp err : String) : String :=
  "GitHub storage driver failed: failed to write file" ++ cp ++ " in bucket "
    ++ jsShow d.bucket ++ ": " ++ err ++ "\x7d"

/-- Method `performWrite` (lines 105–155).
  * Invalid path: immediate rejection with `BadPathError('Invalid Path')`,
    before anything else — zero backend calls.
  * Stream ends normally: the `'end'` listener is a plain `function`
    expression, so the event emitter invokes it with `this` bound to the
    stream, not the driver.  The stream has no `oc` property, so
    `this.oc` is `undefined` and evaluating `this.oc.repos` throws a
    TypeError before `createFile` is reached: the backend is never called,
    neither `resolve` nor `reject` ever runs, and the promise never
    settles (the TypeError escapes the listener uncaught).
  * Stream errors: the `'error'` listener is an arrow function (lexical
    `this` = the driver), so it rejects with the `streamErrorMessage`
    error; the backend is never called. -/
def performWrite (d : GhDriver) (args : WriteArgs) : WriteResult :=
  if ! isPathValid args.path then
    { outcome := .rejected (.badPath "Invalid Path"), backendCalls := [] }
  else
    match args.stream with
    | .ends _chunks =>
      { outcome := .neverSettles (some .typeErrorUndefinedOc), backendCalls := [] }
    | .fails _chunks err =>
      { outcome := .rejected (.jsError (streamErrorMessage d (contentPathOf args) err)),
        backendCalls := [] }

/-- The params object `listFiles` builds (lines 159–168): its Flow type
declares an optional `ref`, and no branch of the function ever assigns it,
so the listing always queries the repository's default branch. -/
structure GhListParams where
  owner : String
  repo : String
  path : String
  ref : Option String
  deriving DecidableEq, Repr

/-- One entry of the backend's directory listing; only `name` is read. -/
structure ContentEntry where
  name : String
  deriving DecidableEq, Repr

/-- The value `listFiles` resolves with. -/
structure ListingResult where
  entries : List String
  page : Option String
  deriving DecidableEq, Repr

/-- How the promise returned by `listFiles` ends up.  `rejected` is
representable but unreachable: the executor wires no rejection at all. -/
inductive ListOutcome where
  | resolved (r : ListingResult)
  | rejected (e : JsError)
  | neverSettles
  deriving DecidableEq, Repr

/-- Lines 159–168: the `params` object passed to `getContents`. -/
def listParams (d : GhDriver) (storageTopLevel : String) : GhListParams :=
  { owner := d.owner, repo := d.repo,
    path := d.path ++ "/" ++ storageTopLevel, ref := none }

set_option linter.unusedVariables false in
/-- Method `listFiles` (lines 157–188), abstracting the octokit call
`this.oc.repos.getContents` as the function argument `getContents`.  The
`page` argument is only logged (`if (page) logger.debug(...)`), never used.
The promise executor receives only `resolve` and attaches no rejection
handler to the `getContents` chain, so when the backend call fails nothing
ever settles the promise. -/
def listFiles (d : GhDriver) (storageTopLevel : String) (page : Option String)
    (getContents : GhListParams → Except String (List ContentEntry)) : ListOutcome :=
  match getContents (listParams d storageTopLevel) with
  | .ok results => .resolved { entries := results.map (fun r => r.name), page := none }
  | .error _ => .neverSettles

/-! Concrete fixtures used by witnesses and counterexamples. -/

/-- A driver with owner `acme`, repo `site`, ref `main` and the default root
path, exactly what `makeDriver` yields from `bucketConfig` below. -/
def sampleDriver : GhDriver :=
  { bucket := none, owner := "acme", repo := "site", path := "/", ref := "main" }

/-- A full construction input whose bucket is `"bkt1"`. -/
def bucketConfig : GhConfigType :=
  { ghConfig := some
      { authtype := some "token", token := some "t0ken", baseurl := none,
        owner := some "acme", repo := some "site", path := none, ref := some "main" },
    bucket := some "bkt1" }

/-- A write of `"foo.txt"` under `"store1"` whose stream ends normally. -/
def fooArgs : WriteArgs :=
  { path := "foo.txt", storageTopLevel := "store1",
    stream := .ends ["hello ", "world"], contentLength := 11, contentType := "text/plain" }

/-- A write whose path attempts directory traversal. -/
def dotdotArgs : WriteArgs :=
  { path := "../etc/passwd", storageTopLevel := "store1",
    stream := .ends ["x"], contentLength := 1,
    contentType := "application/octet-stream" }

/-- A write of `"foo.txt"` under `"store1"` whose stream errors mid-flight. -/
def errArgs : WriteArgs :=
  { path := "foo.txt", storageTopLevel := "store1",
    stream := .fails ["hel"] "Error: EIO", contentLength := 3,
    contentType := "text/plain" }

/-- A backend whose directory-contents call always fails. -/
def failingBackend : GhListParams → Except String (List ContentEntry) :=
  fun _ => .error "Not Found"

/-- A backend holding `a.txt` and `b.txt` at the path `listFiles` derives
for top-level `store1` under the root path `/`. -/
def backendAB : GhListParams → Except String (List ContentEntry) :=
  fun p =>
    if p.path = "//store1" then .ok [{ name := "a.txt" }, { name := "b.txt" }]
    else .error "Not Found"

/-! Helper lemmas. -/

/-- Tail-wise prefix search computes exactly substring occurrence. -/
theorem containsSub_eq_true_iff (pat s : List Char) :
    containsSub pat s = true ↔ pat <:+: s := by
  unfold containsSub
  rw [List.any_eq_true]
  constructor
  · rintro ⟨t, ht, hp⟩
    rw [List.mem_tails] at ht
    rw [List.isPrefixOf_iff_prefix] at hp
    exact List.infix_iff_prefix_suffix.mpr ⟨t, hp, ht⟩
  · intro h
    obtain ⟨t, hp, ht⟩ := List.infix_iff_prefix_suffix.mp h
    exact ⟨t, (List.mem_tails t s).mpr ht, List.isPrefixOf_iff_prefix.mpr hp⟩

/-- A config whose `authtype` is set is not the empty config object. -/
theorem ne_empty_of_authtype (g : GhConfigFields) (a : String)
    (h : g.authtype = some a) : g ≠ emptyGhConfig := by
  intro he
  rw [he] at h
  simp [emptyGhConfig] at h

/-! The claims. -/

/-- C1 counterexample: at owner `acme`, repo `site`, ref `main`, the URL the
success path of a write of `"foo.txt"` under `"store1"` passes to `resolve`
is not `readURLPrefix() ++ "store1/foo.txt"`: the template inserts a second
slash after the prefix, which already ends in `/`. -/
theorem C1_counterexample_double_slash :
    downloadPathOf sampleDriver fooArgs ≠
      getReadURLPrefix sampleDriver ++ "store1/foo.txt" ∧
    downloadPathOf sampleDriver fooArgs =
      "https://raw.githubusercontent.com/acme/site/main//store1/foo.txt" := by
  constructor <;> decide

/-- C1 (amended): the read URL a write computes for resolution equals
`readURLPrefix() ++ "/" ++ (storageTopLevel ++ "/" ++ path)` — a double
slash stands between the prefix and the content path. -/
theorem C1_amended_downloadPath_shape :
    ∀ (d : GhDriver) (args : WriteArgs),
      downloadPathOf d args =
        "https://raw.githubusercontent.com/" ++ d.owner ++ "/" ++ d.repo ++ "/"
          ++ d.ref ++ "//" ++ args.storageTopLevel ++ "/" ++ args.path := by
  intro d args
  apply String.ext
  have h1 : ("/" : String).data = ['/'] := rfl
  have h2 : ("//" : String).data = ['/', '/'] := rfl
  simp [downloadPathOf, getReadURLPrefix, contentPathOf, String.data_append, h1, h2]

/-- C2: on a write whose stream ends normally after the chunks `"hello "`,
`"world"`, the backend is never called and the promise never settles: the
`'end'` listener is a plain `function`, so its `this` is the stream and
`this.oc.repos` throws a TypeError before `createFile` is reached.  The
remaining conjuncts record what the intended single call would have
carried: the buffered content, the content path and the configured ref. -/
theorem C2_end_handler_never_reaches_backend :
    performWrite sampleDriver fooArgs =
      { outcome := .neverSettles (some .typeErrorUndefinedOc), backendCalls := [] } ∧
    bufferedContents ["hello ", "world"] = "hello world" ∧
    (initialGhParams sampleDriver (contentPathOf fooArgs)).path = "store1/foo.txt" ∧
    (initialGhParams sampleDriver (contentPathOf fooArgs)).branch = "main" := by
  refine ⟨by decide, by decide, by decide, by decide⟩

/-- C3 counterexample: on a backend whose directory-contents call fails,
the listing promise does not reject — it never settles at all. -/
theorem C3_counterexample_list_error_swallowed :
    listFiles sampleDriver "store1" none failingBackend = .neverSettles := by
  decide

/-- C3 (amended): a backend listing error is never surfaced: whenever the
get-directory-contents call fails, `listFiles` wires no rejection handler,
so the returned promise never settles and the failure is silently
swallowed. -/
theorem C3_amended_list_error_hangs :
    ∀ (d : GhDriver) (top : String) (page : Option String)
      (getContents : GhListParams → Except String (List ContentEntry)) (err : String),
      getContents (listParams d top) = .error err →
      listFiles d top page getContents = .neverSettles := by
  intro d top page gc err h
  simp [listFiles, h]

/-- C3 witness: the amended claim at a concrete failing backend. -/
theorem C3_amended_list_error_hangs_witness :
    listFiles sampleDriver "store1" none failingBackend = ListOutcome.neverSettles :=
  C3_amended_list_error_hangs sampleDriver "store1" none failingBackend "Not Found" rfl

/-- C4: the driver built from a config whose bucket is `"bkt1"` still has an
unassigned (`undefined`) `bucket` field, and a write whose stream errors
rejects with the wrapping `Error` whose diagnostics name the content path
but say `in bucket undefined` — the configured bucket never appears — while
zero backend calls are issued. -/
theorem C4_stream_error_bucket_undefined :
    makeDriver bucketConfig = .ok sampleDriver ∧
    sampleDriver.bucket = none ∧
    performWrite sampleDriver errArgs =
      { outcome := .rejected (.jsError
          "GitHub storage driver failed: failed to write filestore1/foo.txt in bucket undefined: Error: EIO\x7d"),
        backendCalls := [] } := by
  refine ⟨by decide, rfl, by decide⟩

/-- C5: a write whose path contains the substring `".."` is rejected with
`BadPathError('Invalid Path')` and issues zero backend calls. -/
theorem C5_dotdot_write_rejected (d : GhDriver) (args : WriteArgs)
    (h : "..".data <:+: args.path.data) :
    performWrite d args =
      { outcome := .rejected (.badPath "Invalid Path"), backendCalls := [] } := by
  have hv : isPathValid args.path = false := by
    simp [isPathValid, containsSub_eq_true_iff, h]
  unfold performWrite
  rw [hv]
  simp

/-- C5 witness: the concrete traversal path `"../etc/passwd"`. -/
theorem C5_dotdot_write_rejected_witness :
    ("..".data <:+: "../etc/passwd".data) ∧
    performWrite sampleDriver dotdotArgs =
      { outcome := .rejected (.badPath "Invalid Path"), backendCalls := [] } :=
  ⟨by decide, C5_dotdot_write_rejected sampleDriver dotdotArgs (by decide)⟩

/-- C6 counterexample: with `ghConfig` present but empty — `authtype`
absent along with every other field — construction fails with the
missing-configuration error, not the unsupported-auth-type error the claim
names for every absent `authtype`. -/
theorem C6_counterexample_empty_config :
    makeDriver { ghConfig := some emptyGhConfig, bucket := some "bkt1" } =
      .error "Configuration is missing for GitHub driver" ∧
    makeDriver { ghConfig := some emptyGhConfig, bucket := some "bkt1" } ≠
      .error "Using an unsupported auth type. Only \"token\" or \"oauth\" are supported" := by
  constructor <;> decide

/-- C6 (amended): provided the supplied `ghConfig` has at least one field
set (an entirely empty object fails earlier with the missing-configuration
error), an absent or unsupported `authtype` fails with the
unsupported-auth-type error; a supported `authtype` with an absent or empty
token fails with the matching no-token-supplied error; with valid auth a
missing owner or repo fails with the corresponding supply-identifier error;
and with owner and repo present, absent `path` and `ref` still yield an
instance with `path = "/"` and `ref = "master"` (and a never-assigned
bucket). -/
theorem C6_amended_constructor_validation :
    (∀ (g : GhConfigFields) (b : Option String), g ≠ emptyGhConfig →
      g.authtype ≠ some "token" → g.authtype ≠ some "oauth" →
      makeDriver { ghConfig := some g, bucket := b } =
        .error "Using an unsupported auth type. Only \"token\" or \"oauth\" are supported") ∧
    (∀ (g : GhConfigFields) (b : Option String) (a : String), g.authtype = some a →
      (a = "token" ∨ a = "oauth") → strAbsent g.token = true →
      makeDriver { ghConfig := some g, bucket := b } =
        .error ("Using " ++ a ++ " authentication but no token supplied")) ∧
    (∀ (g : GhConfigFields) (b : Option String) (a : String), g.authtype = some a →
      (a = "token" ∨ a = "oauth") → strAbsent g.token = false →
      (strAbsent g.owner = true →
        makeDriver { ghConfig := some g, bucket := b } =
          .error "You must supply an owner") ∧
      (strAbsent g.owner = false → strAbsent g.repo = true →
        makeDriver { ghConfig := some g, bucket := b } =
          .error "You must supply an repo")) ∧
    (∀ (b : Option String) (a tk ow rp : String),
      (a = "token" ∨ a = "oauth") → tk ≠ "" → ow ≠ "" → rp ≠ "" →
      makeDriver
          { ghConfig :=
              some { authtype := some a, token := some tk, baseurl := none,
                     owner := some ow, repo := some rp, path := none, ref := none },
            bucket := b } =
        .ok { bucket := none, owner := ow, repo := rp, path := "/", ref := "master" }) := by
  refine ⟨?_, ?_, ?_, ?_⟩
  · intro g b hne ht ho
    simp only [makeDriver]
    rw [if_neg hne, if_neg ht, if_neg ho]
  · intro g b a hat hsup htok
    have hne := ne_empty_of_authtype g a hat
    rcases hsup with h | h <;> subst h
    · simp only [makeDriver]
      rw [if_neg hne, if_pos hat, if_pos htok]
      rfl
    · simp only [makeDriver]
      rw [if_neg hne]
      rw [if_neg (by rw [hat]; decide), if_pos hat, if_pos htok]
      rfl
  · intro g b a hat hsup htok
    have hne := ne_empty_of_authtype g a hat
    constructor
    · intro how
      rcases hsup with h | h <;> subst h
      · simp only [makeDriver]
        rw [if_neg hne, if_pos hat, if_neg (by rw [htok]; decide)]
        simp only [afterAuth]
        rw [if_pos how]
      · simp only [makeDriver]
        rw [if_neg hne, if_neg (by rw [hat]; decide), if_pos hat,
          if_neg (by rw [htok]; decide)]
        simp only [afterAuth]
        rw [if_pos how]
    · intro how hrp
      rcases hsup with h | h <;> subst h
      · simp only [makeDriver]
        rw [if_neg hne, if_pos hat, if_neg (by rw [htok]; decide)]
        simp only [afterAuth]
        rw [if_neg (by rw [how]; decide), if_pos hrp]
      · simp only [makeDriver]
        rw [if_neg hne, if_neg (by rw [hat]; decide), if_pos hat,
          if_neg (by rw [htok]; decide)]
        simp only [afterAuth]
        rw [if_neg (by rw [how]; decide), if_pos hrp]
  · intro b a tk ow rp hsup htk how hrp
    rcases hsup with h | h <;> subst h <;>
      simp [makeDriver, afterAuth, strAbsent, presentOr, emptyGhConfig,
        htk, how, hrp]

/-- C6 witness: the amended clauses applied at concrete configurations. -/
theorem C6_amended_constructor_validation_witness :
    makeDriver { ghConfig := some { emptyGhConfig with authtype := some "bearer" },
                 bucket := none } =
      .error "Using an unsupported auth type. Only \"token\" or \"oauth\" are supported" ∧
    makeDriver { ghConfig := some { emptyGhConfig with authtype := some "token" },
                 bucket := none } =
      .error "Using token authentication but no token supplied" ∧
    makeDriver
        { ghConfig :=
            some { emptyGhConfig with authtype := some "oauth", token := some "t" },
          bucket := none } =
      .error "You must supply an owner" ∧
    makeDriver
        { ghConfig :=
            some { authtype := some "token", token := some "t", baseurl := none,
                   owner := some "acme", repo := some "site", path := none,
                   ref := none },
          bucket := none } =
      .ok { bucket := none, owner := "acme", repo := "site",
            path := "/", ref := "master" } :=
  ⟨C6_amended_constructor_validation.1 _ none (by decide) (by decide) (by decide),
   C6_amended_constructor_validation.2.1 _ none "token" rfl (Or.inl rfl) rfl,
   (C6_amended_constructor_validation.2.2.1 _ none "oauth" rfl (Or.inr rfl)
     (by decide)).1 rfl,
   C6_amended_constructor_validation.2.2.2 none "token" "t" "acme" "site"
     (Or.inl rfl) (by decide) (by decide) (by decide)⟩

/-- C7: `isPathValid` returns `false` exactly on the paths containing the
substring `".."`; in particular it returns `true` on the empty string and
on a path whose dots are all single. -/
theorem C7_isPathValid_iff_no_dotdot :
    (∀ p : String, isPathValid p = false ↔ "..".data <:+: p.data) ∧
    isPathValid "" = true ∧ isPathValid "./a.b/c.d" = true := by
  refine ⟨fun p => ?_, by decide, by decide⟩
  simp [isPathValid, containsSub_eq_true_iff]

/-- C8: `readURLPrefix` depends on nothing but the configured owner, repo
and ref, and at owner `acme`, repo `site`, ref `main` it is exactly
`https://raw.githubusercontent.com/acme/site/main/`. -/
theorem C8_readURLPrefix_pure_and_concrete :
    (∀ d d' : GhDriver, d.owner = d'.owner → d.repo = d'.repo → d.ref = d'.ref →
      getReadURLPrefix d = getReadURLPrefix d') ∧
    getReadURLPrefix sampleDriver =
      "https://raw.githubusercontent.com/acme/site/main/" := by
  refine ⟨?_, by decide⟩
  intro d d' h1 h2 h3
  simp [getReadURLPrefix, h1, h2, h3]

/-- C8 witness: two instances differing in bucket and root path but agreeing
on owner, repo and ref yield the same prefix, the concrete string above. -/
theorem C8_readURLPrefix_witness :
    getReadURLPrefix sampleDriver =
      getReadURLPrefix { bucket := some "bkt1", owner := "acme", repo := "site",
                         path := "/other", ref := "main" } ∧
    getReadURLPrefix sampleDriver =
      "https://raw.githubusercontent.com/acme/site/main/" :=
  ⟨C8_readURLPrefix_pure_and_concrete.1 _ _ rfl rfl rfl,
   C8_readURLPrefix_pure_and_concrete.2⟩

/-- C9: on a successful backend call, `listFiles` queries the configured
root path joined to the top-level with `"/"`, resolves with exactly the
entry names in backend order, and reports a `none` continuation token
whatever `page` was supplied. -/
theorem C9_listFiles_success_shape :
    (∀ (d : GhDriver) (top : String),
      (listParams d top).path = d.path ++ "/" ++ top) ∧
    (∀ (d : GhDriver) (top : String) (page : Option String)
       (getContents : GhListParams → Except String (List ContentEntry))
       (entries : List ContentEntry),
       getContents (listParams d top) = .ok entries →
       listFiles d top page getContents =
         .resolved { entries := entries.map (fun r => r.name), page := none }) := by
  refine ⟨fun d top => rfl, ?_⟩
  intro d top page gc entries h
  simp [listFiles, h]

/-- C9 witness: `list("store1", null)` against a backend returning
`[{name: "a.txt"}, {name: "b.txt"}]` resolves with those names in order and
a `none` page. -/
theorem C9_listFiles_success_shape_witness :
    listFiles sampleDriver "store1" none backendAB =
      .resolved { entries := ["a.txt", "b.txt"], page := none } :=
  C9_listFiles_success_shape.2 sampleDriver "store1" none backendAB
    [{ name := "a.txt" }, { name := "b.txt" }] (by decide)

/-- C10: `performWrite` reads neither `contentLength` nor `contentType`:
two write requests identical apart from those two fields produce identical
outcomes and identical backend-call lists. -/
theorem C10_write_ignores_declared_metadata :
    ∀ (d : GhDriver) (p top : String) (st : StreamBehavior)
      (cl cl' : Int) (ct ct' : String),
      performWrite d { path := p, storageTopLevel := top, stream := st,
                       contentLength := cl, contentType := ct } =
      performWrite d { path := p, storageTopLevel := top, stream := st,
                       contentLength := cl', contentType := ct' } := by
  intro d p top st cl cl' ct ct'
  rfl

end GaiaGh
